import Mathlib

/-!
Verification of the real-time multi-speaker translation core
(`audio_processing.py`, `api_services.py`) against its specification.

The embedding below translates the Python source into Lean:
* audio bytes become `List Nat`, timestamps become `ℚ` (seconds, as
  returned by `time.time()`), the 0.5-second silence threshold becomes
  the rational `1/2`;
* each per-speaker worker (`process_user_audio`) is modelled as a
  function consuming the sequence of results its blocking
  `queue.get(timeout=...)` calls produce: a data chunk with the time it
  arrived, the `None` end-of-session sentinel, or a `queue.Empty`
  timeout at some time `now`;
* the utterance pipeline body (transcribe / translate / send / speak,
  lines 75-109 of `audio_processing.py`) is modelled as a function of
  the collaborator responses, emitting the list of observable external
  effects in order;
* `translate_text` (`api_services.py` lines 159-210) is modelled over
  an abstract HTTP outcome: a 200 response with extracted content, a
  non-200 status, or an exception raised during the request or while
  extracting the content (the Python catches every exception inside the
  call and extraction, so the model is a total function);
* `play_audio`, `TranslationSink.write`, `TranslationSink.cleanup` and
  `monitor_speaking` are modelled over explicit state records, with
  maps modelled as functions into `Option`.
-/

/-! ### Utterance segmenter: per-speaker worker loop
(`process_user_audio`, `audio_processing.py` lines 51-114) -/

/-- The silence threshold of 0.5 seconds (`silence_threshold = 0.5`). -/
def silence_threshold : ℚ := 1/2

/-- The worker-local segmentation state of `process_user_audio`:
`accumulated_audio` (a `bytearray`, initially empty) and
`last_audio_time` (initially `None`). -/
structure WorkerState where
  accumulated_audio : List Nat
  last_audio_time : Option ℚ
deriving DecidableEq, Repr

/-- One result of the worker's blocking `audio_queue.get(timeout=silence_threshold)`:
a data chunk (with the wall-clock time at which it was handled), the
`None` end-of-session sentinel, or a `queue.Empty` timeout observed at
wall-clock time `now`. -/
inductive InboxEvent where
  | frame (data : List Nat) (t : ℚ)
  | sentinel
  | timeout (now : ℚ)
deriving DecidableEq, Repr

/-- The `queue.Empty` branch of `process_user_audio` (lines 70-114):
flush the buffer through the pipeline exactly when
`accumulated_audio and last_audio_time and (time.time() - last_audio_time) >= silence_threshold`,
then reset `accumulated_audio` to empty.  Returns the new state and the
list of flushed buffers (empty or a singleton). -/
def timeoutStep (s : WorkerState) (now : ℚ) : WorkerState × List (List Nat) :=
  if s.accumulated_audio ≠ [] then
    match s.last_audio_time with
    | some t =>
      if silence_threshold ≤ now - t then
        ({ s with accumulated_audio := [] }, [s.accumulated_audio])
      else (s, [])
    | none => (s, [])
  else (s, [])

/-- The worker loop of `process_user_audio` (lines 58-114), run over the
sequence of results its `queue.get` calls produce.  Returns the final
worker state, whether the loop terminated via the sentinel (`break`),
and the buffers flushed through the pipeline, in order.  On a frame:
`accumulated_audio.extend(chunk)` then `last_audio_time = time.time()`.
On the sentinel (`chunk is None`): `break` immediately — any remaining
events are never consumed.  On a timeout: `timeoutStep`. -/
def workerRun : WorkerState → List InboxEvent → WorkerState × Bool × List (List Nat)
  | s, [] => (s, false, [])
  | s, InboxEvent.frame d t :: es =>
      workerRun { accumulated_audio := s.accumulated_audio ++ d, last_audio_time := some t } es
  | s, InboxEvent.sentinel :: _ => (s, true, [])
  | s, InboxEvent.timeout now :: es =>
      let r := workerRun (timeoutStep s now).1 es
      (r.1, r.2.1, (timeoutStep s now).2 ++ r.2.2)

/-- The initial worker state: `accumulated_audio = bytearray()`,
`last_audio_time = None` (lines 54-56). -/
def workerInit : WorkerState := { accumulated_audio := [], last_audio_time := none }

/-- The inbox-event trace of a run of frames: each pair is a chunk with
the time at which the worker handled it. -/
def frameTrace (ps : List (List Nat × ℚ)) : List InboxEvent :=
  ps.map (fun p => InboxEvent.frame p.1 p.2)

/-- The worker state reached after consuming a run of frames. -/
def framesState : WorkerState → List (List Nat × ℚ) → WorkerState
  | s, [] => s
  | s, (d, t) :: ps =>
      framesState { accumulated_audio := s.accumulated_audio ++ d, last_audio_time := some t } ps

lemma workerRun_frameTrace_append (ps : List (List Nat × ℚ)) (s : WorkerState)
    (rest : List InboxEvent) :
    workerRun s (frameTrace ps ++ rest) = workerRun (framesState s ps) rest := by
  induction ps generalizing s with
  | nil => rfl
  | cons p ps ih =>
      cases p with
      | mk d t => simpa [frameTrace, workerRun, framesState] using ih _

lemma framesState_accumulated (ps : List (List Nat × ℚ)) (s : WorkerState) :
    (framesState s ps).accumulated_audio
      = s.accumulated_audio ++ (ps.map Prod.fst).flatten := by
  induction ps generalizing s with
  | nil => simp [framesState]
  | cons p ps ih =>
      cases p with
      | mk d t => simp [framesState, ih, List.append_assoc]

lemma framesState_append (ps qs : List (List Nat × ℚ)) (s : WorkerState) :
    framesState s (ps ++ qs) = framesState (framesState s ps) qs := by
  induction ps generalizing s with
  | nil => rfl
  | cons p ps ih =>
      cases p with
      | mk d t => simp [framesState, ih]

lemma framesState_last_single (ps : List (List Nat × ℚ)) (d : List Nat) (t : ℚ)
    (s : WorkerState) :
    (framesState s (ps ++ [(d, t)])).last_audio_time = some t := by
  rw [framesState_append]
  rfl

lemma timeoutStep_flush (s : WorkerState) (now t : ℚ) (hne : s.accumulated_audio ≠ [])
    (hl : s.last_audio_time = some t) (h : silence_threshold ≤ now - t) :
    timeoutStep s now = ({ s with accumulated_audio := [] }, [s.accumulated_audio]) := by
  unfold timeoutStep
  rw [hl]
  simp [hne, h]

/-! ### Translator (`translate_text`, `api_services.py` lines 159-210) -/

/-- Outcome of the HTTP request made by `translate_text`: a 200 response
whose `choices[0].message.content` extracts to `content`, a non-200
status code, or an exception raised inside the `try` block (during
`requests.post` or while extracting the content from a 200 response). -/
inductive HttpOutcome where
  | success (content : String)
  | badStatus (code : Nat)
  | exc
deriving DecidableEq, Repr

/-- Whether the outcome is a failure of the translation call (a non-200
status or a raised exception). -/
def HttpOutcome.isFailure : HttpOutcome → Bool
  | HttpOutcome.success _ => false
  | HttpOutcome.badStatus _ => true
  | HttpOutcome.exc => true

/-- Python `str.strip()`: drop leading and trailing whitespace.
Embedded over the character list (the library `String.trim` is defined
through `Substring` well-founded recursion, which the kernel cannot
evaluate). -/
def pystrip (s : String) : String :=
  String.mk (((s.data.dropWhile Char.isWhitespace).reverse.dropWhile Char.isWhitespace).reverse)

/-- `translate_text(text, source_lang, target_lang)`: returns `""`
without making any call when `text.strip()` is empty; otherwise makes
the request and returns the extracted content on success, and the input
`text` unchanged on a non-200 status or on any exception (both the
request failure and a content-extraction failure are caught by the
`except` clause, which returns `text`).  The source and target
languages only shape the prompt, not the control flow. -/
def translate_text (text source_lang target_lang : String) (resp : HttpOutcome) : String :=
  if pystrip text = "" then ""
  else
    match source_lang, target_lang, resp with
    | _, _, HttpOutcome.success content => content
    | _, _, HttpOutcome.badStatus _ => text
    | _, _, HttpOutcome.exc => text

/-! ### Preference store (`get_user_input_language`, `api_services.py`
lines 373-385) -/

/-- The per-user language preferences persisted in `user_languages.json`:
for each user id, the optional `"input"` and `"output"` entries. -/
structure LangPrefs where
  input : Nat → Option String
  output : Nat → Option String

/-- `get_user_input_language(user_id, default="English")`: the user's
`"input"` preference when present, else the default `"English"`. -/
def get_user_input_language (p : LangPrefs) (user_id : Nat) : String :=
  match p.input user_id with
  | some language => language
  | none => "English"

/-! ### Pipeline body (`process_user_audio`, lines 75-109)

The flush branch drives each utterance through
transcribe → translate → send message → synthesize → play.  The
collaborator responses for one utterance are gathered in `Collab`; the
model emits the externally observable effects in program order. -/

/-- Externally observable effects of one pipeline run: the translation
call (with the exact source/target languages passed), the Discord text
message `f'**User {user_id}**: {transcription}\n**Translated**: {translation}'`
(modelled by its three fields), the speech-synthesis call, and the
scheduling of `play_audio` on a synthesized file. -/
inductive Effect where
  | callTranslate (text source_lang target_lang : String)
  | sendMessage (user_id : Nat) (transcription translation : String)
  | callSynthesize (text : String)
  | playAudio (path : String)
deriving DecidableEq, Repr

/-- Collaborator responses for one flushed utterance:
the result of `transcribe_audio`, the HTTP outcome backing
`translate_text`, the result of `generate_speech` (`None` on any
synthesis failure), and whether `voice_client.is_connected()`. -/
structure Collab where
  transcription : String
  translateResp : HttpOutcome
  speechPath : Option String
  vcConnected : Bool
deriving DecidableEq, Repr

/-- The pipeline body executed on a flushed buffer
(`process_user_audio` lines 75-109): if the transcription is non-empty
(`if transcription:`), call `translate_text(transcription,
source_lang="English", target_lang=target_lang)`, send the text
message, call `generate_speech(translation)`, and schedule `play_audio`
only when a file path was returned and the voice client is connected;
if the transcription is empty, do nothing. -/
def pipelineRun (user_id : Nat) (target_lang : String) (c : Collab) : List Effect :=
  if c.transcription ≠ "" then
    let translation := translate_text c.transcription "English" target_lang c.translateResp
    [Effect.callTranslate c.transcription "English" target_lang,
     Effect.sendMessage user_id c.transcription translation,
     Effect.callSynthesize translation] ++
    (match c.speechPath with
     | some path => if c.vcConnected then [Effect.playAudio path] else []
     | none => [])
  else []

/-! ### Playback/capture arbiter (`play_audio`, `audio_processing.py`
lines 116-173)

Only the capture state is modelled: `recording` is
`voice_client.recording`, toggled by `stop_recording` /
`start_recording`.  The sink-reconstruction bookkeeping of lines
135-169 only prepares the argument of `start_recording` and is
abstracted into the `recording := true` transition. -/

/-- The modelled voice-client state: whether audio capture is running
and whether the client is connected. -/
structure VCState where
  recording : Bool
  connected : Bool
deriving DecidableEq, Repr

/-- Whether `voice_client.play(...)` completes normally or raises an
output-transport error. -/
inductive PlayResult where
  | ok
  | raises
deriving DecidableEq, Repr

/-- `play_audio(voice_client, file_path)`: when connected, record
`was_recording`, stop recording if it was on, then play.  If `play`
raises, the exception propagates from that point — the function body
has no try/finally, so the resume step is skipped and the state at the
raise is returned in `Except.error`.  If `play` completes, recording is
restarted iff `was_recording`. -/
def play_audio (vc : VCState) (res : PlayResult) : Except VCState VCState :=
  if vc.connected then
    let was_recording := vc.recording
    let vc1 := if was_recording then { vc with recording := false } else vc
    match res with
    | PlayResult.raises => Except.error vc1
    | PlayResult.ok =>
        if was_recording then Except.ok { vc1 with recording := true }
        else Except.ok vc1
  else Except.ok vc

/-! ### Speaker session registry (`TranslationSink`, `audio_processing.py`
lines 13-49)

Queues are modelled by their pending contents: a list of items, where
`none` is the `None` end-of-session sentinel and `some d` a data chunk.
The dictionaries `user_queues` and `processing_threads` are modelled as
functions from user ids into `Option`; a thread object is modelled by
its `is_alive()` flag. -/

/-- Pending contents of one `queue.Queue`: `none` is the sentinel. -/
abbrev QueueL := List (Option (List Nat))

/-- The state read and written by `TranslationSink.write`:
`user_queues` maps each user id to its queue (when one exists) and
`processing_threads` maps each user id to the liveness of its recorded
thread (when one was recorded). -/
structure SinkState where
  user_queues : Nat → Option QueueL
  processing_threads : Nat → Option Bool

/-- The guard on line 23 of `audio_processing.py`:
`user_id not in self.user_queues or user_id not in self.processing_threads
or not self.processing_threads[user_id].is_alive()`. -/
def needsNewWorker (st : SinkState) (user_id : Nat) : Bool :=
  (st.user_queues user_id).isNone || (st.processing_threads user_id).isNone
    || !((st.processing_threads user_id).getD true)

/-- `TranslationSink.write(data, user_id)` (lines 19-44): when
`needsNewWorker`, replace `user_queues[user_id]` with a newly allocated
empty queue, and — only when both `text_channel` and `voice_client` are
set on the sink (`hasChannels`) — start a fresh worker thread and
record it as alive in `processing_threads[user_id]`; in every case,
finally `put` the data onto the queue currently at `user_id`. -/
def TranslationSink.write (st : SinkState) (hasChannels : Bool) (data : List Nat)
    (user_id : Nat) : SinkState :=
  let st1 :=
    if needsNewWorker st user_id then
      let stq : SinkState :=
        { st with user_queues := fun v => if v = user_id then some [] else st.user_queues v }
      if hasChannels then
        { stq with processing_threads :=
            fun v => if v = user_id then some true else st.processing_threads v }
      else stq
    else st
  { st1 with user_queues :=
      fun v => if v = user_id then some ((st1.user_queues user_id).getD [] ++ [some data])
               else st1.user_queues v }

/-- `TranslationSink.cleanup` (lines 46-49): `put(None)` on every
queue in `user_queues`; no entry is removed from the map. -/
def TranslationSink.cleanup (st : SinkState) : SinkState :=
  { st with user_queues :=
      fun v => match st.user_queues v with
               | some q => some (q ++ [none])
               | none => none }

/-! ### Speaking-event monitor (`monitor_speaking`, `audio_processing.py`
lines 175-200) -/

/-- One iteration of the `monitor_speaking` loop for a speaking event
`(user, speaking)` over the `user_queues` map.  When `speaking` and the
user has no queue: allocate an empty queue and store it (the worker
thread started on it is not part of this map state).  When not
`speaking` and the user has a queue `q`: `put(None)` onto `q`, then
`del user_queues[user]` — the entry is removed immediately.  The second
component is the contents of the queue the (detached) worker still
drains after the sentinel push, when that branch ran. -/
def monitor_speaking_step (uq : Nat → Option QueueL) (user : Nat) (speaking : Bool) :
    (Nat → Option QueueL) × Option QueueL :=
  if speaking then
    if (uq user).isNone then
      (fun v => if v = user then some [] else uq v, none)
    else (uq, none)
  else
    match uq user with
    | some q => (fun v => if v = user then none else uq v, some (q ++ [none]))
    | none => (uq, none)

/-! ### Multi-speaker system model

One concurrent worker per speaker, each fed exclusively through its own
inbox.  A system state maps each speaker id to its local state (inbox
contents plus the worker-local `WorkerState` and a terminated flag);
a system event either delivers a frame into one speaker's inbox
(the `put` at the end of `TranslationSink.write` /
`monitor_speaking`) or lets one speaker's worker take a step of the
`process_user_audio` loop (consume the head of its inbox, or time
out). -/

/-- Per-speaker local state: inbox contents, worker segmentation state,
and whether the worker has terminated via the sentinel. -/
structure SpeakerLocal where
  inbox : QueueL
  worker : WorkerState
  ended : Bool
deriving DecidableEq, Repr

/-- An event of the multi-speaker system, tagged with the speaker it
concerns. -/
inductive SysEvent where
  | deliver (u : Nat) (d : List Nat)
  | consume (u : Nat) (now : ℚ)
  | timeout (u : Nat) (now : ℚ)
deriving DecidableEq, Repr

/-- The speaker an event concerns. -/
def SysEvent.speaker : SysEvent → Nat
  | SysEvent.deliver u _ => u
  | SysEvent.consume u _ => u
  | SysEvent.timeout u _ => u

/-- Effect of a system event on the concerned speaker's local state.
`deliver` enqueues the chunk; `consume` has the worker dequeue the head
of its inbox and handle it as in `workerRun` (frame: extend and stamp;
sentinel: terminate); `timeout` applies `timeoutStep`.  A terminated
worker takes no further steps. -/
def localStep (l : SpeakerLocal) : SysEvent → SpeakerLocal
  | SysEvent.deliver _ d => { l with inbox := l.inbox ++ [some d] }
  | SysEvent.consume _ now =>
      if l.ended then l
      else
        match l.inbox with
        | [] => l
        | some d :: rest =>
            { inbox := rest,
              worker := { accumulated_audio := l.worker.accumulated_audio ++ d,
                          last_audio_time := some now },
              ended := false }
        | none :: rest => { l with inbox := rest, ended := true }
  | SysEvent.timeout _ now =>
      if l.ended then l else { l with worker := (timeoutStep l.worker now).1 }

/-- One system step: only the concerned speaker's entry changes. -/
def sysStep (st : Nat → SpeakerLocal) (e : SysEvent) : Nat → SpeakerLocal :=
  fun v => if v = e.speaker then localStep (st e.speaker) e else st v

/-- Run of the multi-speaker system over a list of events. -/
def sysRun : (Nat → SpeakerLocal) → List SysEvent → (Nat → SpeakerLocal)
  | st, [] => st
  | st, e :: es => sysRun (sysStep st e) es

lemma sysRun_other (es : List SysEvent) (st : Nat → SpeakerLocal) (a : Nat)
    (hes : ∀ e ∈ es, e.speaker ≠ a) : sysRun st es a = st a := by
  induction es generalizing st with
  | nil => rfl
  | cons e es ih =>
      have he : e.speaker ≠ a := hes e (by simp)
      have hne : a ≠ e.speaker := fun h => he h.symm
      have : sysStep st e a = st a := by
        unfold sysStep
        simp [hne]
      rw [sysRun, ih _ (fun x hx => hes x (by simp [hx])), this]

/-! ### Claims -/

/-- C1 counterexample: a worker that accumulated the bytes `[1, 2, 3]`
and then receives the end-of-session sentinel terminates (the loop
`break`s) with its buffer still non-empty and with an empty flush list —
not the single flush the claim requires. -/
theorem c1_counterexample :
    (workerRun workerInit [InboxEvent.frame [1, 2, 3] 0, InboxEvent.sentinel]).1.accumulated_audio
      = [1, 2, 3]
    ∧ (workerRun workerInit [InboxEvent.frame [1, 2, 3] 0, InboxEvent.sentinel]).2.1 = true
    ∧ (workerRun workerInit [InboxEvent.frame [1, 2, 3] 0, InboxEvent.sentinel]).2.2 = [] := by
  refine ⟨rfl, rfl, rfl⟩

/-- C1 (amended): on receiving the end-of-session sentinel the worker
terminates immediately with no flush, whether or not the accumulated
buffer is empty; any events after the sentinel are never consumed. -/
theorem c1_sentinel_terminates_without_flush (s : WorkerState) (es : List InboxEvent) :
    workerRun s (InboxEvent.sentinel :: es) = (s, true, []) := rfl

/-- C2 counterexample: with capture active beforehand
(`recording = true`, connected), a playback step that raises an
output-transport error propagates with recording still stopped —
capture is not resumed and the session is left suspended. -/
theorem c2_counterexample :
    play_audio { recording := true, connected := true } PlayResult.raises
      = Except.error { recording := false, connected := true } := rfl

/-- C2 (amended): when capture was active beforehand, capture is
resumed only if the playback step completes normally; if playback
raises, the error propagates with recording still stopped, leaving the
session suspended. -/
theorem c2_resume_only_on_success (vc : VCState) (hc : vc.connected = true)
    (hr : vc.recording = true) :
    play_audio vc PlayResult.ok = Except.ok { recording := true, connected := vc.connected }
    ∧ play_audio vc PlayResult.raises
        = Except.error { recording := false, connected := vc.connected } := by
  cases vc with
  | mk r c =>
      cases hc
      cases hr
      exact ⟨rfl, rfl⟩

/-- Witness for C2 at the concrete state with recording and connection
both active. -/
theorem c2_witness :
    play_audio { recording := true, connected := true } PlayResult.ok
      = Except.ok { recording := true, connected := true }
    ∧ play_audio { recording := true, connected := true } PlayResult.raises
      = Except.error { recording := false, connected := true } :=
  c2_resume_only_on_success { recording := true, connected := true } rfl rfl

/-- C3: for a run of frames (inter-frame gaps below the silence
threshold, so the blocking `get` returns each frame before a timeout
can fire) whose concatenation is non-empty, followed by a timeout at
least the silence threshold after the last frame, the worker flushes
exactly once with the full concatenation in arrival order; moreover the
timeout branch flushes only when the buffer is non-empty and the
elapsed time since the last frame is at least the threshold, and never
flushes an empty buffer. -/
theorem c3_single_utterance_flush (ps : List (List Nat × ℚ)) (d : List Nat) (tl T : ℚ)
    (hne : ((ps ++ [(d, tl)]).map Prod.fst).flatten ≠ [])
    (hT : silence_threshold ≤ T - tl) :
    (workerRun workerInit (frameTrace (ps ++ [(d, tl)]) ++ [InboxEvent.timeout T])).2.2
      = [((ps ++ [(d, tl)]).map Prod.fst).flatten]
    ∧ (∀ s now, (timeoutStep s now).2 ≠ [] →
        s.accumulated_audio ≠ []
          ∧ ∃ t0, s.last_audio_time = some t0 ∧ silence_threshold ≤ now - t0)
    ∧ (∀ s now, s.accumulated_audio = [] → (timeoutStep s now).2 = []) := by
  refine ⟨?_, ?_, ?_⟩
  · rw [workerRun_frameTrace_append]
    have hacc : (framesState workerInit (ps ++ [(d, tl)])).accumulated_audio
        = ((ps ++ [(d, tl)]).map Prod.fst).flatten := by
      simpa [workerInit] using framesState_accumulated (ps ++ [(d, tl)]) workerInit
    have hlast := framesState_last_single ps d tl workerInit
    have hstep := timeoutStep_flush (framesState workerInit (ps ++ [(d, tl)])) T tl
      (by rw [hacc]; exact hne) hlast hT
    simp [workerRun, hstep, hacc]
  · intro s now h
    by_cases hb : s.accumulated_audio = []
    · simp [timeoutStep, hb] at h
    · cases hlt : s.last_audio_time with
      | none => simp [timeoutStep, hb, hlt] at h
      | some t0 =>
          by_cases hth : silence_threshold ≤ now - t0
          · exact ⟨hb, t0, rfl, hth⟩
          · simp [timeoutStep, hb, hlt, hth] at h
  · intro s now h
    simp [timeoutStep, h]

/-- Witness for C3: a single 3-byte frame at time 0 followed by a
timeout at time 1 flushes exactly once with those bytes. -/
theorem c3_witness :
    (workerRun workerInit (frameTrace [([1, 2, 3], (0 : ℚ))] ++ [InboxEvent.timeout 1])).2.2
      = [[1, 2, 3]] :=
  (c3_single_utterance_flush [] [1, 2, 3] 0 1 (by decide)
    (by norm_num [silence_threshold])).1

/-- C4 counterexample: with a live session for speaker 7, the
stopped-speaking branch of `monitor_speaking` pushes the sentinel onto
the session's queue but also deletes speaker 7's entry from the session
map at that very point — the entry is removed there, contrary to the
claim. -/
theorem c4_counterexample :
    (monitor_speaking_step (fun v => if v = 7 then some [] else none) 7 false).1 7 = none
    ∧ (monitor_speaking_step (fun v => if v = 7 then some [] else none) 7 false).2
        = some [none] := by
  exact ⟨rfl, rfl⟩

/-- C4 (amended): `TranslationSink.cleanup` pushes the sentinel onto
each existing session's queue without removing any map entry, but the
stopped-speaking branch of `monitor_speaking` pushes the sentinel and
then immediately deletes the speaker's entry from the session map
(entries of other speakers are untouched). -/
theorem c4_end_of_session_handling (st : SinkState) (uq : Nat → Option QueueL)
    (u : Nat) (q : QueueL) (hst : st.user_queues u = some q) (huq : uq u = some q) :
    (TranslationSink.cleanup st).user_queues u = some (q ++ [none])
    ∧ (monitor_speaking_step uq u false).1 u = none
    ∧ (monitor_speaking_step uq u false).2 = some (q ++ [none])
    ∧ ∀ v, v ≠ u → (monitor_speaking_step uq u false).1 v = uq v := by
  refine ⟨?_, ?_, ?_, ?_⟩
  · simp [TranslationSink.cleanup, hst]
  · simp [monitor_speaking_step, huq]
  · simp [monitor_speaking_step, huq]
  · intro v hv
    simp [monitor_speaking_step, huq, hv]

/-- Witness for C4 at a concrete one-session map holding a pending
chunk. -/
theorem c4_witness :
    (TranslationSink.cleanup
        ⟨fun v => if v = 7 then some [some [1]] else none, fun _ => none⟩).user_queues 7
      = some [some [1], none]
    ∧ (monitor_speaking_step (fun v => if v = 7 then some [some [1]] else none) 7 false).1 7
      = none
    ∧ (monitor_speaking_step (fun v => if v = 7 then some [some [1]] else none) 7 false).2
      = some [some [1], none] :=
  ⟨(c4_end_of_session_handling
      ⟨fun v => if v = 7 then some [some [1]] else none, fun _ => none⟩
      (fun v => if v = 7 then some [some [1]] else none) 7 [some [1]] rfl rfl).1,
   (c4_end_of_session_handling
      ⟨fun v => if v = 7 then some [some [1]] else none, fun _ => none⟩
      (fun v => if v = 7 then some [some [1]] else none) 7 [some [1]] rfl rfl).2.1,
   (c4_end_of_session_handling
      ⟨fun v => if v = 7 then some [some [1]] else none, fun _ => none⟩
      (fun v => if v = 7 then some [some [1]] else none) 7 [some [1]] rfl rfl).2.2.1⟩

/-- C5: when the transcription of a flushed utterance is empty, the
pipeline body emits no effect at all — no translation call, no text
message, no synthesis call and no playback. -/
theorem c5_empty_transcription_short_circuit (user_id : Nat) (target_lang : String)
    (c : Collab) (h : c.transcription = "") :
    pipelineRun user_id target_lang c = [] := by
  simp [pipelineRun, h]

/-- Witness for C5 at a concrete empty transcription. -/
theorem c5_witness :
    pipelineRun 7 "Spanish"
      { transcription := "", translateResp := HttpOutcome.exc,
        speechPath := none, vcConnected := true } = [] :=
  c5_empty_transcription_short_circuit 7 "Spanish" _ rfl

/-- C6: for a flushed utterance with non-empty transcription whose
synthesis returns no audio resource, the text message carrying the
speaker id, the transcript and the translation is still emitted, and
no playback effect is ever emitted. -/
theorem c6_synthesis_failure_message_still_sent (user_id : Nat) (target_lang : String)
    (c : Collab) (ht : c.transcription ≠ "") (hs : c.speechPath = none) :
    Effect.sendMessage user_id c.transcription
        (translate_text c.transcription "English" target_lang c.translateResp)
      ∈ pipelineRun user_id target_lang c
    ∧ ∀ p, Effect.playAudio p ∉ pipelineRun user_id target_lang c := by
  constructor
  · simp [pipelineRun, ht, hs]
  · intro p
    simp [pipelineRun, ht, hs]

/-- Witness for C6: transcription "hello", synthesis returning nothing —
the message effect is emitted. -/
theorem c6_witness :
    Effect.sendMessage 7 "hello"
        (translate_text "hello" "English" "Spanish" (HttpOutcome.success "hola"))
      ∈ pipelineRun 7 "Spanish"
          { transcription := "hello", translateResp := HttpOutcome.success "hola",
            speechPath := none, vcConnected := true } :=
  (c6_synthesis_failure_message_still_sent 7 "Spanish"
    { transcription := "hello", translateResp := HttpOutcome.success "hola",
      speechPath := none, vcConnected := true } (by decide) rfl).1

/-- C7 counterexample: speaker 7's configured input language in the
preference store is "French", yet the pipeline's translation call for
speaker 7 uses the hardcoded source language "English"; no translation
call with source "French" is ever made. -/
theorem c7_counterexample :
    get_user_input_language
        ⟨fun v => if v = 7 then some "French" else none, fun _ => none⟩ 7 = "French"
    ∧ Effect.callTranslate "bonjour" "English" "Spanish"
        ∈ pipelineRun 7 "Spanish"
            { transcription := "bonjour", translateResp := HttpOutcome.exc,
              speechPath := none, vcConnected := true }
    ∧ Effect.callTranslate "bonjour" "French" "Spanish"
        ∉ pipelineRun 7 "Spanish"
            { transcription := "bonjour", translateResp := HttpOutcome.exc,
              speechPath := none, vcConnected := true } := by
  refine ⟨rfl, by decide, by decide⟩

/-- C7 (amended): for every flushed utterance with non-empty
transcription, the translation call uses the hardcoded source language
"English" — the speaker's configured input language is never
consulted — and the session's target language: a translate-call effect
is emitted with source "English", and every translate-call effect
emitted has source "English" and target equal to the session's target
language. -/
theorem c7_hardcoded_source_language (user_id : Nat) (target_lang : String) (c : Collab)
    (ht : c.transcription ≠ "") :
    Effect.callTranslate c.transcription "English" target_lang
      ∈ pipelineRun user_id target_lang c
    ∧ ∀ txt s t, Effect.callTranslate txt s t ∈ pipelineRun user_id target_lang c →
        s = "English" ∧ t = target_lang := by
  constructor
  · simp [pipelineRun, ht]
  · intro txt s t hmem
    cases hsp : c.speechPath with
    | none =>
        simp [pipelineRun, ht, hsp] at hmem
        exact ⟨hmem.2.1, hmem.2.2⟩
    | some p =>
        cases hvc : c.vcConnected with
        | false =>
            simp [pipelineRun, ht, hsp, hvc] at hmem
            exact ⟨hmem.2.1, hmem.2.2⟩
        | true =>
            simp [pipelineRun, ht, hsp, hvc] at hmem
            exact ⟨hmem.2.1, hmem.2.2⟩

/-- Witness for C7 with transcription "hi" and target "German". -/
theorem c7_witness :
    Effect.callTranslate "hi" "English" "German"
      ∈ pipelineRun 3 "German"
          { transcription := "hi", translateResp := HttpOutcome.exc,
            speechPath := none, vcConnected := true } :=
  (c7_hardcoded_source_language 3 "German"
    { transcription := "hi", translateResp := HttpOutcome.exc,
      speechPath := none, vcConnected := true } (by decide)).1

/-- C8: whenever the translation call is actually made (the call only
happens when the stripped text is non-empty) and fails — a non-200
status or an exception during the call — `translate_text` returns the
input text unchanged.  The model being a total function mirrors that
the Python catches every exception arising from the call, so no
exception propagates to the caller. -/
theorem c8_translation_failure_passthrough (text source_lang target_lang : String)
    (resp : HttpOutcome) (hc : pystrip text ≠ "") (hf : resp.isFailure = true) :
    translate_text text source_lang target_lang resp = text := by
  cases resp with
  | success content => simp [HttpOutcome.isFailure] at hf
  | badStatus code => simp [translate_text, hc]
  | exc => simp [translate_text, hc]

/-- Witness for C8: a 500 status on "hello" returns "hello". -/
theorem c8_witness :
    translate_text "hello" "English" "Spanish" (HttpOutcome.badStatus 500) = "hello" :=
  c8_translation_failure_passthrough "hello" "English" "Spanish"
    (HttpOutcome.badStatus 500) (by decide) rfl

/-- C9: events belonging to speaker b never mutate speaker a's
segmentation state: any run of system events all tagged with b leaves
a's local state (inbox, buffer, last-frame time) unchanged, and a frame
ingested for b through `TranslationSink.write` leaves a's queue entry
and thread record unchanged. -/
theorem c9_speaker_isolation (a b : Nat) (hab : a ≠ b) (st : Nat → SpeakerLocal)
    (es : List SysEvent) (hes : ∀ e ∈ es, e.speaker = b)
    (sk : SinkState) (ch : Bool) (d : List Nat) :
    sysRun st es a = st a
    ∧ (TranslationSink.write sk ch d b).user_queues a = sk.user_queues a
    ∧ (TranslationSink.write sk ch d b).processing_threads a = sk.processing_threads a := by
  refine ⟨?_, ?_, ?_⟩
  · exact sysRun_other es st a (fun e he => by rw [hes e he]; exact fun h => hab h.symm)
  · unfold TranslationSink.write
    by_cases hn : needsNewWorker sk b = true <;> by_cases hch : ch = true <;>
      simp [hn, hch, hab]
  · unfold TranslationSink.write
    by_cases hn : needsNewWorker sk b = true <;> by_cases hch : ch = true <;>
      simp [hn, hch, hab]

/-- Witness for C9: delivering a frame for speaker 2 touches neither
speaker 1's local worker state nor speaker 1's registry entries. -/
theorem c9_witness :
    sysRun (fun _ => SpeakerLocal.mk [] workerInit false) [SysEvent.deliver 2 [5]] 1
      = SpeakerLocal.mk [] workerInit false
    ∧ (TranslationSink.write ⟨fun _ => none, fun _ => none⟩ true [5] 2).user_queues 1 = none
    ∧ (TranslationSink.write ⟨fun _ => none, fun _ => none⟩ true [5] 2).processing_threads 1
      = none :=
  c9_speaker_isolation 1 2 (by decide) (fun _ => SpeakerLocal.mk [] workerInit false)
    [SysEvent.deliver 2 [5]] (by decide) ⟨fun _ => none, fun _ => none⟩ true [5]

/-- C10: when a frame arrives for a speaker whose recorded worker
thread is dead or missing (or who has no queue), `TranslationSink.write`
replaces the speaker's queue with a newly allocated empty queue before
the final `put`, so afterwards the queue holds exactly the new frame —
whatever was pending in the old queue is silently discarded. -/
theorem c10_stale_queue_replaced (st : SinkState) (ch : Bool) (d : List Nat) (u : Nat)
    (h : needsNewWorker st u = true) :
    (TranslationSink.write st ch d u).user_queues u = some [some d] := by
  unfold TranslationSink.write
  by_cases hch : ch = true <;> simp [h, hch]

/-- Witness for C10: speaker 7 had two undrained items (a chunk and the
sentinel) and a dead thread; after the new frame arrives the queue
holds only the new frame. -/
theorem c10_witness :
    (TranslationSink.write
        ⟨fun v => if v = 7 then some [some [9, 9], none] else none,
         fun v => if v = 7 then some false else none⟩ true [1] 7).user_queues 7
      = some [some [1]] :=
  c10_stale_queue_replaced
    ⟨fun v => if v = 7 then some [some [9, 9], none] else none,
     fun v => if v = 7 then some false else none⟩ true [1] 7 (by decide)
